import Mathlib

/-
  Verification of the Zabbix server HA manager (src/zabbix_server/ha).

  The development shallowly embeds the HA manager's pure decision logic in
  Lean.  Database operations are modelled as pure state transformations on a
  snapshot of the ha_node table; the embedding follows the success path of the
  database layer (ZBX_DB_OK), with the rollback path made explicit where the
  code rolls a transaction back on a fatal error.  Machine integers are
  modelled as Int (timestamps, statuses, counters) and Nat (ports); all values
  handled by the code are far below any overflow boundary.
-/

/-- Node status constant ZBX_NODE_STATUS_ERROR from ha.h. -/
def ZBX_NODE_STATUS_ERROR : Int := -2

/-- Node status constant ZBX_NODE_STATUS_UNKNOWN from ha.h. -/
def ZBX_NODE_STATUS_UNKNOWN : Int := -1

/-- Node status constant ZBX_NODE_STATUS_STANDBY from ha.h. -/
def ZBX_NODE_STATUS_STANDBY : Int := 0

/-- Node status constant ZBX_NODE_STATUS_STOPPED from ha.h. -/
def ZBX_NODE_STATUS_STOPPED : Int := 1

/-- Node status constant ZBX_NODE_STATUS_UNAVAILABLE from ha.h. -/
def ZBX_NODE_STATUS_UNAVAILABLE : Int := 2

/-- Node status constant ZBX_NODE_STATUS_ACTIVE from ha.h. -/
def ZBX_NODE_STATUS_ACTIVE : Int := 3

/-- Tick period ZBX_HA_POLL_PERIOD (seconds). -/
def ZBX_HA_POLL_PERIOD : Int := 5

/-- Default failover delay ZBX_HA_DEFAULT_FAILOVER_DELAY (SEC_PER_MIN). -/
def ZBX_HA_DEFAULT_FAILOVER_DELAY : Int := 60

/-- One row of the ha_node table as parsed by ha_db_get_nodes
    (zbx_ha_node_t).  A cuid is modelled as a String; the empty string models
    a cleared cuid (zbx_cuid_empty). -/
structure HaNode where
  ha_nodeid : String
  ha_sessionid : String
  name : String
  address : String
  port : Nat
  status : Int
  lastaccess : Int
deriving Repr, DecidableEq, Inhabited

/-- In-memory HA manager state (zbx_ha_info_t).  db_status and db_time are
    not carried: the embedding models ticks on which the database layer
    succeeds, with db_time supplied by the database snapshot. -/
structure HaInfo where
  ha_nodeid : String
  ha_status : Int
  failover_delay : Int
  lastaccess_active : Int
  offline_ticks_active : Int
  auditlog : Int
  name : String
  error : Option String
deriving Repr, DecidableEq, Inhabited

/-- Snapshot of the shared database as seen by one transaction: the ha_node
    rows in the order returned by
    "select ... from ha_node order by ha_nodeid", the database clock
    (ZBX_DB_TIMESTAMP), and the config row (ha_failover_delay,
    auditlog_enabled). -/
structure HaDb where
  nodes : List HaNode
  db_time : Int
  failover_delay : Int
  auditlog : Int
deriving Repr, DecidableEq, Inhabited

/-- ha_set_error: record a fatal error.  Errors are not overridden: when the
    status is already ZBX_NODE_STATUS_ERROR the call returns without touching
    the state. -/
def ha_set_error (info : HaInfo) (msg : String) : HaInfo :=
  if info.ha_status = ZBX_NODE_STATUS_ERROR then info
  else { info with error := some msg, ha_status := ZBX_NODE_STATUS_ERROR }

/-- ha_is_available: availability from lastaccess, failover delay and the
    database clock.  Returns false (FAIL) when
    lastaccess + failover_delay <= db_time. -/
def ha_is_available (info : HaInfo) (lastaccess db_time : Int) : Bool :=
  if lastaccess + info.failover_delay ≤ db_time then false else true

/-- zbx_ha_status_str: status rendered as text. -/
def zbx_ha_status_str (ha_status : Int) : String :=
  if ha_status = ZBX_NODE_STATUS_STANDBY then "standby"
  else if ha_status = ZBX_NODE_STATUS_STOPPED then "stopped"
  else if ha_status = ZBX_NODE_STATUS_UNAVAILABLE then "unavailable"
  else if ha_status = ZBX_NODE_STATUS_ACTIVE then "active"
  else if ha_status = ZBX_NODE_STATUS_ERROR then "error"
  else "unknown"

/-- ha_check_standalone_config: scan the node rows in order; fail fatally at
    the first row with a non-empty name whose status is not stopped and which
    is still available. -/
def ha_check_standalone_config (info : HaInfo) : List HaNode → Int → HaInfo × Bool
  | [], _ => (info, true)
  | n :: rest, db_time =>
      if n.name = "" then ha_check_standalone_config info rest db_time
      else if n.status ≠ ZBX_NODE_STATUS_STOPPED ∧
          ha_is_available info n.lastaccess db_time = true then
        (ha_set_error info ("cannot change mode to standalone while HA node \"" ++ n.name ++
          "\" is " ++ zbx_ha_status_str n.status), false)
      else ha_check_standalone_config info rest db_time

/-- ha_find_node_by_name: first row whose name matches. -/
def ha_find_node_by_name : List HaNode → String → Option HaNode
  | [], _ => none
  | n :: rest, name => if n.name = name then some n else ha_find_node_by_name rest name

/-- First row with status ZBX_NODE_STATUS_ACTIVE (the scan-and-break loop at
    the top of ha_check_active_node). -/
def find_first_active : List HaNode → Option HaNode
  | [] => none
  | n :: rest => if n.status = ZBX_NODE_STATUS_ACTIVE then some n else find_first_active rest

/-- ha_check_standby_nodes: every standby row whose lastaccess is at least
    failover_delay seconds behind the database clock is marked unavailable
    (the collected ha_nodeid list drives one update statement). -/
def ha_check_standby_nodes (info : HaInfo) (nodes : List HaNode) (db_time : Int) : List HaNode :=
  nodes.map (fun n =>
    if n.status = ZBX_NODE_STATUS_STANDBY ∧ db_time ≥ n.lastaccess + info.failover_delay then
      { n with status := ZBX_NODE_STATUS_UNAVAILABLE }
    else n)

/-- ha_check_active_node: run by a node whose own status is not active.
    Returns the updated info, the row to mark unavailable (if the failover
    threshold was crossed), the new local ha_status, and false when a fatal
    error was recorded (active standalone row found in HA mode).  ha_status
    is the local variable of ha_check_nodes passed by reference. -/
def ha_check_active_node (info : HaInfo) (nodes : List HaNode) (ha_status : Int) :
    HaInfo × Option HaNode × Int × Bool :=
  match find_first_active nodes with
  | none => (info, none, ZBX_NODE_STATUS_ACTIVE, true)
  | some act =>
    if act.name = "" then
      (ha_set_error info "found active standalone node in HA mode", none, ha_status, false)
    else if act.ha_nodeid = info.ha_nodeid then
      (info, none, ZBX_NODE_STATUS_ACTIVE, true)
    else
      let info1 :=
        if act.lastaccess ≠ info.lastaccess_active then
          { info with lastaccess_active := act.lastaccess, offline_ticks_active := 0 }
        else
          { info with offline_ticks_active := info.offline_ticks_active + 1 }
      if Int.tdiv info1.failover_delay ZBX_HA_POLL_PERIOD + 1 < info1.offline_ticks_active then
        (info1, some act, ZBX_NODE_STATUS_ACTIVE, true)
      else (info1, none, ha_status, true)

/-- The "update ha_node set lastaccess=...,status=... where ha_nodeid=..."
    statement of ha_check_nodes: refresh lastaccess of the own row and write
    the new status when it differs from the status read from the row. -/
def ha_db_update_own_node (nodes : List HaNode) (nodeid : String) (db_time : Int)
    (old_status new_status : Int) : List HaNode :=
  nodes.map (fun n =>
    if n.ha_nodeid = nodeid then
      { n with lastaccess := db_time,
               status := if new_status ≠ old_status then new_status else n.status }
    else n)

/-- The "update ha_node set status=unavailable where ha_nodeid=..." statement
    issued against the stalled active row. -/
def ha_db_set_unavailable (nodes : List HaNode) (nodeid : String) : List HaNode :=
  nodes.map (fun n =>
    if n.ha_nodeid = nodeid then { n with status := ZBX_NODE_STATUS_UNAVAILABLE } else n)

/-- ha_check_nodes: one registered tick.  Finds the own row by name, verifies
    session ownership, refreshes the config, runs the role-dependent liveness
    check, updates the own row and possibly marks the stalled active row
    unavailable, and commits; on a fatal error the transaction is rolled back
    (the snapshot is returned unchanged). -/
def ha_check_nodes (sessionid : String) (is_cluster : Bool) (info : HaInfo) (db : HaDb) :
    HaInfo × HaDb :=
  match ha_find_node_by_name db.nodes info.name with
  | none =>
      (ha_set_error info ("cannot find server node \"" ++ info.name ++ "\" in registry"), db)
  | some node =>
    if node.ha_sessionid = sessionid then
      let info1 := if info.ha_nodeid = "" then { info with ha_nodeid := node.ha_nodeid } else info
      let info2 := { info1 with failover_delay := db.failover_delay, auditlog := db.auditlog }
      match (if is_cluster then
               (if info2.ha_status = ZBX_NODE_STATUS_ACTIVE then
                  (info2, (none : Option HaNode), info2.ha_status,
                   ha_check_standby_nodes info2 db.nodes db.db_time, true)
                else
                  match ha_check_active_node info2 db.nodes info2.ha_status with
                  | (i3, unav, st, ok) => (i3, unav, st, db.nodes, ok))
             else (info2, none, info2.ha_status, db.nodes, true)) with
      | (info3, unav, st, nodes1, ok) =>
        if ok then
          let nodes2 := ha_db_update_own_node nodes1 info3.ha_nodeid db.db_time node.status st
          let nodes3 := match unav with
            | none => nodes2
            | some last_active => ha_db_set_unavailable nodes2 last_active.ha_nodeid
          ({ info3 with ha_status := st }, { db with nodes := nodes3 })
        else (info3, db)
    else (ha_set_error info "the server HA registry record has changed ownership", db)

/-- ha_db_update_exit_status: on shutdown, write status stopped into the own
    row, but only when the last known in-memory status is active or standby;
    otherwise return without opening a transaction. -/
def ha_db_update_exit_status (info : HaInfo) (db : HaDb) : HaDb :=
  if info.ha_status ≠ ZBX_NODE_STATUS_ACTIVE ∧ info.ha_status ≠ ZBX_NODE_STATUS_STANDBY then db
  else
    { db with nodes := db.nodes.map (fun n =>
        if n.ha_nodeid = info.ha_nodeid then { n with status := ZBX_NODE_STATUS_STOPPED }
        else n) }

/-- One object of the JSON array built by ha_db_get_nodes_json; each field of
    the structure is one key of the object. -/
structure HaNodeJsonEntry where
  id : String
  name : String
  status : Int
  lastaccess : Int
  address : String
  db_timestamp : Int
  lastaccess_age : Int
deriving Repr, DecidableEq, Inhabited

/-- Body of the per-row loop of ha_db_get_nodes_json: the address is rendered
    with zbx_snprintf "%s:%hu" and lastaccess_age is the database clock minus
    the row's lastaccess. -/
def ha_node_json_row (db_time : Int) (n : HaNode) : HaNodeJsonEntry :=
  { id := n.ha_nodeid, name := n.name, status := n.status, lastaccess := n.lastaccess,
    address := n.address ++ ":" ++ toString n.port,
    db_timestamp := db_time, lastaccess_age := db_time - n.lastaccess }

/-- The loop of ha_db_get_nodes_json over the node rows in their read order. -/
def ha_nodes_json_loop (db_time : Int) : List HaNode → List HaNodeJsonEntry
  | [] => []
  | n :: rest => ha_node_json_row db_time n :: ha_nodes_json_loop db_time rest

/-- ha_db_get_nodes_json: read the database clock and the node rows in the
    same request and serialize one JSON object per row. -/
def ha_db_get_nodes_json (db : HaDb) : List HaNodeJsonEntry :=
  ha_nodes_json_loop db.db_time db.nodes

/-- ha_remove_node_by_index: the request carries a 1-based index into the
    node_id-ordered list.  Out-of-range indexes and rows in active or standby
    status are rejected without deleting; otherwise the indexed row is
    deleted.  Returns the snapshot after the request, the reply error string,
    and the SUCCEED/FAIL result. -/
def ha_remove_node_by_index (db : HaDb) (index : Int) : HaDb × Option String × Bool :=
  let i := index - 1
  if i < 0 ∨ (db.nodes.length : Int) ≤ i then
    (db, some "node index out of range", false)
  else
    let n := db.nodes.getD i.toNat default
    if n.status = ZBX_NODE_STATUS_ACTIVE ∨ n.status = ZBX_NODE_STATUS_STANDBY then
      (db, some ("node is " ++ zbx_ha_status_str n.status), false)
    else
      ({ db with nodes := db.nodes.eraseIdx i.toNat }, none, true)

/-- Decimal value of a digit string (helper for the numeric parsers). -/
def digitsToNat (cs : List Char) : Nat :=
  cs.foldl (fun a c => a * 10 + (c.toNat - 48)) 0

/-- is_ushort: parse a string as an unsigned 16-bit integer; only strings of
    decimal digits whose value fits 0..65535 are accepted. -/
def is_ushort (s : String) : Option Nat :=
  if s.data ≠ [] ∧ s.data.all (fun c => c.isDigit) then
    if digitsToNat s.data ≤ 65535 then some (digitsToNat s.data) else none
  else none

/-- C atoi, as applied by ha_db_get_nodes to the status and lastaccess
    columns: skip leading whitespace, optional sign, then leading digits. -/
def atoi (s : String) : Int :=
  let cs := s.data.dropWhile (fun c => c = ' ' ∨ c = '\t' ∨ c = '\n' ∨ c = '\r')
  match cs with
  | '-' :: rest => -(Int.ofNat (digitsToNat (rest.takeWhile (fun c => c.isDigit))))
  | '+' :: rest => Int.ofNat (digitsToNat (rest.takeWhile (fun c => c.isDigit)))
  | _ => Int.ofNat (digitsToNat (cs.takeWhile (fun c => c.isDigit)))

/-- One raw row of the ha_node select, before column parsing (DB_ROW). -/
structure HaNodeRow where
  ha_nodeid : String
  name : String
  status : String
  lastaccess : String
  address : String
  port : String
  ha_sessionid : String
deriving Repr, DecidableEq, Inhabited

/-- Per-row body of ha_db_get_nodes: status and lastaccess go through atoi;
    a port that is not a valid unsigned short is logged and replaced by 0. -/
def ha_db_fetch_node (row : HaNodeRow) : HaNode :=
  { ha_nodeid := row.ha_nodeid, ha_sessionid := row.ha_sessionid, name := row.name,
    address := row.address, status := atoi row.status, lastaccess := atoi row.lastaccess,
    port := (is_ushort row.port).getD 0 }

/-- ha_db_get_nodes: parse every fetched row; the function does not fail on
    row contents (only on database errors, which are outside this model). -/
def ha_db_get_nodes (rows : List HaNodeRow) : List HaNode :=
  rows.map ha_db_fetch_node

/-- Frames read by the parent-side facade from the notification channel:
    ZBX_IPC_SERVICE_HA_UPDATE (status, failover delay, error text) and
    ZBX_IPC_SERVICE_HA_HEARTBEAT. -/
inductive HaIpcMsg where
  | update (status failover_delay : Int) (err : String)
  | heartbeat
deriving Repr, DecidableEq

/-- The static state zbx_ha_recv_status keeps between calls: last_hb (0 when
    no heartbeat has been recorded yet) and the last received failover
    delay. -/
structure RecvState where
  last_hb : Int
  ha_failover_delay : Int
deriving Repr, DecidableEq, Inhabited

/-- The drain loop of zbx_ha_recv_status: each pending frame is paired with
    the wall-clock time at which it is processed.  A heartbeat records its
    time in last_hb; an update frame replaces the failover delay and the
    status, records its time in last_hb when the status changed, and returns
    FAIL immediately when the received status is the error status. -/
def recv_drain : List (Int × HaIpcMsg) → Int → RecvState → Bool × Int × RecvState
  | [], ha_status, s => (true, ha_status, s)
  | (now, HaIpcMsg.heartbeat) :: rest, ha_status, s =>
      recv_drain rest ha_status { s with last_hb := now }
  | (now, HaIpcMsg.update newst fd _) :: rest, ha_status, s =>
      let s1 := { s with ha_failover_delay := fd }
      if newst = ZBX_NODE_STATUS_ERROR then (false, newst, s1)
      else recv_drain rest newst (if ha_status ≠ newst then { s1 with last_hb := now } else s1)

/-- zbx_ha_recv_status: drain the pending frames, then, in cluster mode, if
    the resulting status is active and a heartbeat was ever recorded, force
    standby when the last heartbeat is at least failover_delay minus the poll
    period old, or when the clock reads earlier than the last heartbeat.
    now is the time taken when the receive loop found no further frame. -/
def zbx_ha_recv_status (is_cluster : Bool) (msgs : List (Int × HaIpcMsg)) (now : Int)
    (ha_status : Int) (s : RecvState) : Bool × Int × RecvState :=
  match recv_drain msgs ha_status s with
  | (false, st, s1) => (false, st, s1)
  | (true, st, s1) =>
      if is_cluster = true ∧ st = ZBX_NODE_STATUS_ACTIVE ∧ s1.last_hb ≠ 0 ∧
          (s1.last_hb + s1.ha_failover_delay - ZBX_HA_POLL_PERIOD ≤ now ∨ now < s1.last_hb) then
        (true, ZBX_NODE_STATUS_STANDBY, s1)
      else (true, st, s1)

/-- Modelled from the spec: the liveness predicate of section 4.2,
    live(n) = n.status in (active, standby) and
    n.lastaccess + failover_delay > db_time.  Used only to compare the spec's
    wording of standalone admission with ha_check_standalone_config. -/
def live_spec (failover_delay db_time : Int) (n : HaNode) : Bool :=
  if (n.status = ZBX_NODE_STATUS_ACTIVE ∨ n.status = ZBX_NODE_STATUS_STANDBY) ∧
      db_time < n.lastaccess + failover_delay then true else false

/-- Concrete manager state used by witnesses (standby, no error recorded). -/
def info_c5 : HaInfo :=
  { ha_nodeid := "ckv1", ha_status := ZBX_NODE_STATUS_STANDBY, failover_delay := 60,
    lastaccess_active := 0, offline_ticks_active := 0, auditlog := 0, name := "a",
    error := none }

/-- C5: once the manager's status is the error status, a further ha_set_error
    call leaves the whole state, in particular the stored error string and the
    error status, unchanged; the first recorded error message is never
    overwritten by a later one. -/
theorem C5_error_sticky (info : HaInfo) (msg m1 m2 : String) :
    (info.ha_status = ZBX_NODE_STATUS_ERROR → ha_set_error info msg = info) ∧
    (info.ha_status ≠ ZBX_NODE_STATUS_ERROR →
      ha_set_error (ha_set_error info m1) m2 = ha_set_error info m1 ∧
      (ha_set_error info m1).error = some m1 ∧
      (ha_set_error info m1).ha_status = ZBX_NODE_STATUS_ERROR) := by
  constructor
  · intro h
    simp [ha_set_error, h]
  · intro h
    simp [ha_set_error, h]

/-- Witness for C5 at a concrete state and two concrete messages. -/
theorem C5_error_sticky_witness :
    ha_set_error (ha_set_error info_c5 "first error") "second error" =
      ha_set_error info_c5 "first error" ∧
    (ha_set_error info_c5 "first error").error = some "first error" ∧
    (ha_set_error info_c5 "first error").ha_status = ZBX_NODE_STATUS_ERROR :=
  (C5_error_sticky info_c5 "x" "first error" "second error").2 (by decide)

/-- C8: the shutdown write sets the own row's status to stopped exactly when
    the last known in-memory status was active or standby; for any other
    status the table is returned untouched, and even in the write case every
    row other than the own row is unchanged. -/
theorem C8_exit_status (info : HaInfo) (db : HaDb) :
    (info.ha_status ≠ ZBX_NODE_STATUS_ACTIVE → info.ha_status ≠ ZBX_NODE_STATUS_STANDBY →
      ha_db_update_exit_status info db = db) ∧
    ((info.ha_status = ZBX_NODE_STATUS_ACTIVE ∨ info.ha_status = ZBX_NODE_STATUS_STANDBY) →
      (ha_db_update_exit_status info db).db_time = db.db_time ∧
      (ha_db_update_exit_status info db).failover_delay = db.failover_delay ∧
      ∀ i : Nat, (ha_db_update_exit_status info db).nodes[i]? =
        (db.nodes[i]?).map (fun n =>
          if n.ha_nodeid = info.ha_nodeid then { n with status := ZBX_NODE_STATUS_STOPPED }
          else n)) := by
  constructor
  · intro h1 h2
    simp [ha_db_update_exit_status, h1, h2]
  · intro h
    have hcond : ¬ (info.ha_status ≠ ZBX_NODE_STATUS_ACTIVE ∧
        info.ha_status ≠ ZBX_NODE_STATUS_STANDBY) := by
      tauto
    simp only [ha_db_update_exit_status, if_neg hcond]
    refine ⟨trivial, trivial, ?_⟩
    intro i
    simp

/-- Manager state with status active, owning row "n1". -/
def info_c8 : HaInfo :=
  { ha_nodeid := "n1", ha_status := ZBX_NODE_STATUS_ACTIVE, failover_delay := 60,
    lastaccess_active := 0, offline_ticks_active := 0, auditlog := 0, name := "a",
    error := none }

/-- Manager state with status error (no shutdown write expected). -/
def info_c8e : HaInfo := { info_c8 with ha_status := ZBX_NODE_STATUS_ERROR }

/-- A two-row table: the own row "n1" (active) and a peer "n2" (standby). -/
def db_c8 : HaDb :=
  { nodes :=
      [{ ha_nodeid := "n1", ha_sessionid := "s1", name := "a", address := "h1", port := 10051,
         status := ZBX_NODE_STATUS_ACTIVE, lastaccess := 90 },
       { ha_nodeid := "n2", ha_sessionid := "s2", name := "b", address := "h2", port := 10051,
         status := ZBX_NODE_STATUS_STANDBY, lastaccess := 95 }],
    db_time := 100, failover_delay := 60, auditlog := 0 }

/-- Witness for C8: with status error nothing is written; with status active
    the own row is set to stopped and the peer row stays intact. -/
theorem C8_exit_status_witness :
    ha_db_update_exit_status info_c8e db_c8 = db_c8 ∧
    ((ha_db_update_exit_status info_c8 db_c8).nodes[0]?).map HaNode.status =
      some ZBX_NODE_STATUS_STOPPED ∧
    ((ha_db_update_exit_status info_c8 db_c8).nodes[1]?).map HaNode.status =
      some ZBX_NODE_STATUS_STANDBY := by
  refine ⟨(C8_exit_status info_c8e db_c8).1 (by decide) (by decide), ?_, ?_⟩
  · rw [((C8_exit_status info_c8 db_c8).2 (Or.inl rfl)).2.2 0]
    decide
  · rw [((C8_exit_status info_c8 db_c8).2 (Or.inl rfl)).2.2 1]
    decide

/-- The facade's static heartbeat state: last heartbeat at 100, failover
    delay 60. -/
def recv_s_c3 : RecvState := { last_hb := 100, ha_failover_delay := 60 }

/-- C3 counterexample: in standalone mode (node not configured as a cluster
    member) the facade never forces standby, so with status active and no
    heartbeat for failover_delay − P seconds (precondition shown on the
    left), zbx_ha_recv_status still returns active, refuting the claim as
    stated. -/
theorem C3_counterexample :
    (100 : Int) + 60 - ZBX_HA_POLL_PERIOD ≤ 200 ∧
    ¬ ((zbx_ha_recv_status false [] 200 ZBX_NODE_STATUS_ACTIVE recv_s_c3).2.1 =
        ZBX_NODE_STATUS_STANDBY) ∧
    (zbx_ha_recv_status false [] 200 ZBX_NODE_STATUS_ACTIVE recv_s_c3).2.1 =
      ZBX_NODE_STATUS_ACTIVE := by
  decide

/-- C3 (amended): when the node is configured as a cluster member, the
    facade's current status is active, at least one heartbeat or status
    change has been recorded, no frames are pending, and the last heartbeat
    is at least failover_delay − P seconds old, the next zbx_ha_recv_status
    returns the standby status. -/
theorem C3_heartbeat_standby (s : RecvState) (now : Int)
    (hhb : s.last_hb ≠ 0)
    (hold : s.last_hb + s.ha_failover_delay - ZBX_HA_POLL_PERIOD ≤ now) :
    zbx_ha_recv_status true [] now ZBX_NODE_STATUS_ACTIVE s =
      (true, ZBX_NODE_STATUS_STANDBY, s) := by
  simp [zbx_ha_recv_status, recv_drain, hhb, hold]

/-- Witness for C3 (amended) at a concrete heartbeat state. -/
theorem C3_heartbeat_standby_witness :
    zbx_ha_recv_status true [] 200 ZBX_NODE_STATUS_ACTIVE recv_s_c3 =
      (true, ZBX_NODE_STATUS_STANDBY, recv_s_c3) :=
  C3_heartbeat_standby recv_s_c3 200 (by decide) (by decide)

/-- C9: in cluster mode, with status active and a recorded heartbeat, a
    wall clock reading strictly earlier than the last heartbeat (clock
    stepped backwards) also forces the returned status to standby. -/
theorem C9_clock_backwards (s : RecvState) (now : Int)
    (hhb : s.last_hb ≠ 0) (hback : now < s.last_hb) :
    zbx_ha_recv_status true [] now ZBX_NODE_STATUS_ACTIVE s =
      (true, ZBX_NODE_STATUS_STANDBY, s) := by
  simp [zbx_ha_recv_status, recv_drain, hhb, hback]

/-- Witness for C9 with the clock 50 seconds behind the last heartbeat. -/
theorem C9_clock_backwards_witness :
    zbx_ha_recv_status true [] 50 ZBX_NODE_STATUS_ACTIVE recv_s_c3 =
      (true, ZBX_NODE_STATUS_STANDBY, recv_s_c3) :=
  C9_clock_backwards recv_s_c3 50 (by decide) (by decide)

/-- Success condition of standalone admission, read off the scan: every row
    with a non-empty name is either stopped or no longer available. -/
theorem ha_check_standalone_ok_iff (info : HaInfo) (nodes : List HaNode) (db_time : Int) :
    (ha_check_standalone_config info nodes db_time).2 = true ↔
      ∀ n ∈ nodes, n.name ≠ "" →
        (n.status = ZBX_NODE_STATUS_STOPPED ∨
          ha_is_available info n.lastaccess db_time = false) := by
  induction nodes with
  | nil => simp [ha_check_standalone_config]
  | cons n rest ih =>
    by_cases hname : n.name = ""
    · rw [show ha_check_standalone_config info (n :: rest) db_time =
          ha_check_standalone_config info rest db_time from by
        simp [ha_check_standalone_config, hname]]
      rw [ih]
      simp [hname]
    · by_cases hbad : n.status ≠ ZBX_NODE_STATUS_STOPPED ∧
          ha_is_available info n.lastaccess db_time = true
      · rw [show ha_check_standalone_config info (n :: rest) db_time =
            (ha_set_error info ("cannot change mode to standalone while HA node \"" ++
              n.name ++ "\" is " ++ zbx_ha_status_str n.status), false) from by
          simp [ha_check_standalone_config, hname, hbad]]
        constructor
        · intro hft
          exact absurd hft (by simp)
        · intro hall
          rcases hall n (List.mem_cons_self n rest) hname with h1 | h2
          · exact absurd h1 hbad.1
          · rw [hbad.2] at h2
            cases h2
      · rw [show ha_check_standalone_config info (n :: rest) db_time =
            ha_check_standalone_config info rest db_time from by
          simp [ha_check_standalone_config, hname, hbad]]
        rw [ih]
        constructor
        · intro hall m hm hmname
          rcases List.mem_cons.mp hm with rfl | hm'
          · rcases Decidable.em (m.status = ZBX_NODE_STATUS_STOPPED) with h1 | h1
            · exact Or.inl h1
            · refine Or.inr ?_
              rcases Bool.eq_false_or_eq_true (ha_is_available info m.lastaccess db_time)
                with h2 | h2
              · exact absurd ⟨h1, h2⟩ hbad
              · exact h2
          · exact hall m hm' hmname
        · intro hall m hm hmname
          exact hall m (List.mem_cons_of_mem n hm) hmname

/-- Failure behaviour of standalone admission: FAIL comes with the error
    status and the "cannot change mode to standalone" message naming a
    violating row. -/
theorem ha_check_standalone_fail_spec (info : HaInfo) (nodes : List HaNode) (db_time : Int)
    (h : info.ha_status ≠ ZBX_NODE_STATUS_ERROR) :
    (ha_check_standalone_config info nodes db_time).2 = false →
      (ha_check_standalone_config info nodes db_time).1.ha_status = ZBX_NODE_STATUS_ERROR ∧
      ∃ n ∈ nodes, n.name ≠ "" ∧ n.status ≠ ZBX_NODE_STATUS_STOPPED ∧
        ha_is_available info n.lastaccess db_time = true ∧
        (ha_check_standalone_config info nodes db_time).1.error =
          some ("cannot change mode to standalone while HA node \"" ++ n.name ++ "\" is " ++
            zbx_ha_status_str n.status) := by
  induction nodes with
  | nil => simp [ha_check_standalone_config]
  | cons n rest ih =>
    by_cases hname : n.name = ""
    · rw [show ha_check_standalone_config info (n :: rest) db_time =
          ha_check_standalone_config info rest db_time from by
        simp [ha_check_standalone_config, hname]]
      intro hf
      obtain ⟨h1, m, hm, hrest⟩ := ih hf
      exact ⟨h1, m, List.mem_cons_of_mem n hm, hrest⟩
    · by_cases hbad : n.status ≠ ZBX_NODE_STATUS_STOPPED ∧
          ha_is_available info n.lastaccess db_time = true
      · rw [show ha_check_standalone_config info (n :: rest) db_time =
            (ha_set_error info ("cannot change mode to standalone while HA node \"" ++
              n.name ++ "\" is " ++ zbx_ha_status_str n.status), false) from by
          simp [ha_check_standalone_config, hname, hbad]]
        intro _
        refine ⟨by simp [ha_set_error, h], n, List.mem_cons_self n rest, hname, hbad.1,
          hbad.2, ?_⟩
        simp [ha_set_error, h]
      · rw [show ha_check_standalone_config info (n :: rest) db_time =
            ha_check_standalone_config info rest db_time from by
          simp [ha_check_standalone_config, hname, hbad]]
        intro hf
        obtain ⟨h1, m, hm, hrest⟩ := ih hf
        exact ⟨h1, m, List.mem_cons_of_mem n hm, hrest⟩

/-- Standalone manager state (empty node name) used against C2. -/
def info_c2 : HaInfo :=
  { ha_nodeid := "", ha_status := ZBX_NODE_STATUS_UNKNOWN, failover_delay := 60,
    lastaccess_active := 0, offline_ticks_active := 0, auditlog := 0, name := "",
    error := none }

/-- A row named "X" in unavailable status whose lastaccess is still fresh. -/
def node_c2 : HaNode :=
  { ha_nodeid := "n1", ha_sessionid := "s1", name := "X", address := "h", port := 10051,
    status := ZBX_NODE_STATUS_UNAVAILABLE, lastaccess := 100 }

/-- C2 counterexample: the row node_c2 is not live under the spec's predicate
    (its status is neither active nor standby), so the claim demands that
    standalone admission succeed; the code rejects the table because the
    row's status is merely different from stopped while its lastaccess is
    still fresh. -/
theorem C2_counterexample :
    ¬ (((ha_check_standalone_config info_c2 [node_c2] 100).2 = true) ↔
        (∀ n ∈ [node_c2], n.name ≠ "" → live_spec info_c2.failover_delay 100 n = false)) := by
  decide

/-- C2 (amended): standalone admission succeeds iff no row with a non-empty
    name is in a status other than stopped while still available
    (lastaccess + failover_delay > db_time); on violation it fails fatally
    with the error "cannot change mode to standalone while HA node \"X\" is
    <status>" for a violating row X. -/
theorem C2_standalone_admission (info : HaInfo) (nodes : List HaNode) (db_time : Int)
    (h : info.ha_status ≠ ZBX_NODE_STATUS_ERROR) :
    ((ha_check_standalone_config info nodes db_time).2 = true ↔
      ∀ n ∈ nodes, n.name ≠ "" →
        (n.status = ZBX_NODE_STATUS_STOPPED ∨
          ha_is_available info n.lastaccess db_time = false)) ∧
    ((ha_check_standalone_config info nodes db_time).2 = false →
      (ha_check_standalone_config info nodes db_time).1.ha_status = ZBX_NODE_STATUS_ERROR ∧
      ∃ n ∈ nodes, n.name ≠ "" ∧ n.status ≠ ZBX_NODE_STATUS_STOPPED ∧
        ha_is_available info n.lastaccess db_time = true ∧
        (ha_check_standalone_config info nodes db_time).1.error =
          some ("cannot change mode to standalone while HA node \"" ++ n.name ++ "\" is " ++
            zbx_ha_status_str n.status)) :=
  ⟨ha_check_standalone_ok_iff info nodes db_time,
   ha_check_standalone_fail_spec info nodes db_time h⟩

/-- Witness for C2 (amended): admission over an empty table and over a table
    holding only a stopped row succeeds; over the node_c2 table it fails with
    the rendered message. -/
theorem C2_standalone_admission_witness :
    (ha_check_standalone_config info_c2 [node_c2] 100).2 = false ∧
    (ha_check_standalone_config info_c2 [node_c2] 100).1.ha_status =
      ZBX_NODE_STATUS_ERROR ∧
    (ha_check_standalone_config info_c2 [node_c2] 100).1.error =
      some "cannot change mode to standalone while HA node \"X\" is unavailable" := by
  have hrun := (C2_standalone_admission info_c2 [node_c2] 100 (by decide)).2 (by decide)
  obtain ⟨hst, m, hm, _, _, _, herr⟩ := hrun
  refine ⟨by decide, hst, ?_⟩
  rw [herr]
  have : m = node_c2 := by
    simpa using hm
  rw [this]
  decide

/-- Cluster manager state for node "b", owning row "n1". -/
def info_c4 : HaInfo :=
  { ha_nodeid := "n1", ha_status := ZBX_NODE_STATUS_STANDBY, failover_delay := 60,
    lastaccess_active := 0, offline_ticks_active := 0, auditlog := 0, name := "b",
    error := none }

/-- The row of node "b", owned by a different session than the manager's. -/
def node_c4 : HaNode :=
  { ha_nodeid := "n1", ha_sessionid := "othersession", name := "b", address := "h",
    port := 10051, status := ZBX_NODE_STATUS_STANDBY, lastaccess := 40 }

/-- Table holding only the taken-over row of node "b". -/
def db_c4 : HaDb := { nodes := [node_c4], db_time := 100, failover_delay := 60, auditlog := 0 }

/-- C4 counterexample: on a session-ownership mismatch the manager does
    transition to the error status, but the stored message is "the server HA
    registry record has changed ownership", not the claimed "HA registry
    record has changed ownership". -/
theorem C4_counterexample :
    (ha_check_nodes "mysession" true info_c4 db_c4).1.ha_status = ZBX_NODE_STATUS_ERROR ∧
    ¬ ((ha_check_nodes "mysession" true info_c4 db_c4).1.error =
        some "HA registry record has changed ownership") := by
  decide

/-- C4 (amended): on any tick in which the row matching this node's name
    carries a session_id different from the in-memory session_id, the manager
    transitions to the error status carrying the message "the server HA
    registry record has changed ownership", and the tick's transaction is
    rolled back, leaving the table unchanged. -/
theorem C4_session_takeover (sessionid : String) (is_cluster : Bool) (info : HaInfo)
    (db : HaDb) (node : HaNode)
    (herr : info.ha_status ≠ ZBX_NODE_STATUS_ERROR)
    (hfind : ha_find_node_by_name db.nodes info.name = some node)
    (hsess : node.ha_sessionid ≠ sessionid) :
    (ha_check_nodes sessionid is_cluster info db).1.ha_status = ZBX_NODE_STATUS_ERROR ∧
    (ha_check_nodes sessionid is_cluster info db).1.error =
      some "the server HA registry record has changed ownership" ∧
    (ha_check_nodes sessionid is_cluster info db).2 = db := by
  simp [ha_check_nodes, hfind, hsess, ha_set_error, herr]

/-- Witness for C4 (amended) on the taken-over one-row table. -/
theorem C4_session_takeover_witness :
    (ha_check_nodes "mysession" true info_c4 db_c4).1.ha_status = ZBX_NODE_STATUS_ERROR ∧
    (ha_check_nodes "mysession" true info_c4 db_c4).1.error =
      some "the server HA registry record has changed ownership" ∧
    (ha_check_nodes "mysession" true info_c4 db_c4).2 = db_c4 :=
  C4_session_takeover "mysession" true info_c4 db_c4 node_c4 (by decide) (by decide)
    (by decide)

/-- C6: RemoveNode with a 1-based index into the node_id-ordered list replies
    "node index out of range" outside [1, row count], "node is active" /
    "node is standby" when the indexed row has that status — in all three
    cases deleting nothing — and only otherwise deletes the indexed row. -/
theorem C6_remove_node (db : HaDb) (index : Int) :
    ((index < 1 ∨ (db.nodes.length : Int) < index) →
      ha_remove_node_by_index db index = (db, some "node index out of range", false)) ∧
    (∀ n, 1 ≤ index → db.nodes[(index - 1).toNat]? = some n →
      (n.status = ZBX_NODE_STATUS_ACTIVE →
        ha_remove_node_by_index db index = (db, some "node is active", false)) ∧
      (n.status = ZBX_NODE_STATUS_STANDBY →
        ha_remove_node_by_index db index = (db, some "node is standby", false)) ∧
      (n.status ≠ ZBX_NODE_STATUS_ACTIVE → n.status ≠ ZBX_NODE_STATUS_STANDBY →
        ha_remove_node_by_index db index =
          ({ db with nodes := db.nodes.eraseIdx (index - 1).toNat }, none, true))) := by
  constructor
  · intro hout
    have hc : index - 1 < 0 ∨ (db.nodes.length : Int) ≤ index - 1 := by omega
    simp only [ha_remove_node_by_index]
    rw [if_pos hc]
  · intro n h1 hget
    have hlt : (index - 1).toNat < db.nodes.length := by
      have := List.getElem?_eq_some_iff.mp hget
      exact this.1
    have hc : ¬ (index - 1 < 0 ∨ (db.nodes.length : Int) ≤ index - 1) := by
      push_neg
      constructor
      · omega
      · have h2 : ((index - 1).toNat : Int) = index - 1 := Int.toNat_of_nonneg (by omega)
        omega
    have hgetD : db.nodes.getD (index - 1).toNat default = n := by
      rw [List.getD_eq_getElem?_getD, hget]
      rfl
    refine ⟨?_, ?_, ?_⟩
    · intro hst
      simp only [ha_remove_node_by_index]
      rw [if_neg hc, hgetD, if_pos (Or.inl hst), hst]
      rfl
    · intro hst
      simp only [ha_remove_node_by_index]
      rw [if_neg hc, hgetD, if_pos (Or.inr hst), hst]
      rfl
    · intro hst1 hst2
      simp only [ha_remove_node_by_index]
      rw [if_neg hc, hgetD, if_neg (by tauto)]

/-- The active row of the removal table. -/
def node_c6a : HaNode :=
  { ha_nodeid := "n1", ha_sessionid := "s1", name := "a", address := "h1", port := 10051,
    status := ZBX_NODE_STATUS_ACTIVE, lastaccess := 90 }

/-- The stopped row of the removal table. -/
def node_c6b : HaNode :=
  { ha_nodeid := "n2", ha_sessionid := "s2", name := "b", address := "h2", port := 10051,
    status := ZBX_NODE_STATUS_STOPPED, lastaccess := 50 }

/-- Two-row table for the removal witness: row 1 active, row 2 stopped. -/
def db_c6 : HaDb :=
  { nodes := [node_c6a, node_c6b], db_time := 100, failover_delay := 60, auditlog := 0 }

/-- Witness for C6: index 5 is out of range, index 1 names the active row,
    index 2 deletes the stopped row. -/
theorem C6_remove_node_witness :
    ha_remove_node_by_index db_c6 5 = (db_c6, some "node index out of range", false) ∧
    ha_remove_node_by_index db_c6 1 = (db_c6, some "node is active", false) ∧
    ha_remove_node_by_index db_c6 2 =
      ({ db_c6 with nodes := db_c6.nodes.eraseIdx 1 }, none, true) := by
  refine ⟨(C6_remove_node db_c6 5).1 (by decide), ?_, ?_⟩
  · exact ((C6_remove_node db_c6 1).2 node_c6a (by decide) (by decide)).1 (by decide)
  · exact (((C6_remove_node db_c6 2).2 node_c6b (by decide) (by decide)).2.2)
      (by decide) (by decide)

/-- Associativity of string append (helper for address rendering). -/
theorem string_append_assoc (a b c : String) : a ++ b ++ c = a ++ (b ++ c) := by
  apply String.ext
  simp [String.data_append, List.append_assoc]

/-- The JSON loop produces exactly one object per row. -/
theorem ha_nodes_json_loop_length (t : Int) (ns : List HaNode) :
    (ha_nodes_json_loop t ns).length = ns.length := by
  induction ns with
  | nil => rfl
  | cons n rest ih => simp [ha_nodes_json_loop, ih]

/-- Index-wise description of the JSON loop. -/
theorem ha_nodes_json_loop_getElem (t : Int) (ns : List HaNode) (i : Nat) :
    (ha_nodes_json_loop t ns)[i]? = (ns[i]?).map (ha_node_json_row t) := by
  induction ns generalizing i with
  | nil => simp [ha_nodes_json_loop]
  | cons n rest ih =>
    cases i with
    | zero => simp [ha_nodes_json_loop]
    | succ j => simp [ha_nodes_json_loop, ih]

/-- C7: GetNodes serializes one JSON object per row, in the node_id order of
    the read; each object's id, name, status, lastaccess and address fields
    equal the row contents (address rendered as "host:port"), its
    db_timestamp is the database clock read in the same request, and its
    lastaccess_age is that db_timestamp minus the row's lastaccess. -/
theorem C7_get_nodes_json (db : HaDb) :
    (ha_db_get_nodes_json db).length = db.nodes.length ∧
    ∀ (i : Nat) (n : HaNode), db.nodes[i]? = some n →
      (ha_db_get_nodes_json db)[i]? = some
        (HaNodeJsonEntry.mk n.ha_nodeid n.name n.status n.lastaccess
          (n.address ++ ":" ++ toString n.port) db.db_time (db.db_time - n.lastaccess)) := by
  refine ⟨ha_nodes_json_loop_length _ _, ?_⟩
  intro i n hn
  simp [ha_db_get_nodes_json, ha_nodes_json_loop_getElem, hn, ha_node_json_row]

/-- The single row of the JSON witness table. -/
def node_c7 : HaNode :=
  { ha_nodeid := "n1", ha_sessionid := "s1", name := "a", address := "host", port := 1234,
    status := ZBX_NODE_STATUS_ACTIVE, lastaccess := 90 }

/-- One-row table read at database time 100. -/
def db_c7 : HaDb := { nodes := [node_c7], db_time := 100, failover_delay := 60, auditlog := 0 }

/-- Witness for C7 on the one-row table: the object carries the row contents,
    address "host:1234", db_timestamp 100 and lastaccess_age 10. -/
theorem C7_get_nodes_json_witness :
    (ha_db_get_nodes_json db_c7).length = db_c7.nodes.length ∧
    (ha_db_get_nodes_json db_c7)[0]? = some
      { id := "n1", name := "a", status := ZBX_NODE_STATUS_ACTIVE, lastaccess := 90,
        address := "host:1234", db_timestamp := 100, lastaccess_age := 10 } := by
  refine ⟨(C7_get_nodes_json db_c7).1, ?_⟩
  rw [(C7_get_nodes_json db_c7).2 0 node_c7 (by decide)]
  decide

/-- C10: reading the node list never fails on a malformed port column; a row
    whose port does not parse as an unsigned 16-bit integer yields a node
    with port 0, and the GetNodes JSON then reports its address as
    "host:0". -/
theorem C10_port_fallback (rows : List HaNodeRow) (t fd al : Int) (i : Nat) (row : HaNodeRow)
    (hrow : rows[i]? = some row)
    (hbad : is_ushort row.port = none) :
    (ha_db_get_nodes rows).length = rows.length ∧
    ((ha_db_get_nodes rows)[i]?).map HaNode.port = some 0 ∧
    ((ha_db_get_nodes_json (HaDb.mk (ha_db_get_nodes rows) t fd al))[i]?).map
        HaNodeJsonEntry.address =
      some (row.address ++ ":0") := by
  refine ⟨by simp [ha_db_get_nodes], ?_, ?_⟩
  · simp [ha_db_get_nodes, hrow, ha_db_fetch_node, hbad]
  · simp only [ha_db_get_nodes_json, ha_nodes_json_loop_getElem, ha_db_get_nodes,
      List.getElem?_map, hrow, Option.map_some, ha_db_fetch_node, ha_node_json_row, hbad,
      Option.getD_none, Option.map]
    rw [string_append_assoc]
    rfl

/-- C1: in a two-node cluster with failover_delay 10 and tick period 5, once
    the standby node has observed the active row's lastaccess unchanged for
    at least 3 consecutive ticks (offline_ticks_active >= 3 on entry) and the
    lastaccess is still unchanged, its next tick's committed transaction both
    marks the active row unavailable and sets the standby node's own row (and
    in-memory status) to active. -/
theorem C1_failover_takeover (sessionid : String) (info : HaInfo) (db : HaDb)
    (own act : HaNode)
    (horder : db.nodes = [own, act] ∨ db.nodes = [act, own])
    (hfd : db.failover_delay = 10)
    (hst : info.ha_status = ZBX_NODE_STATUS_STANDBY)
    (hname : own.name = info.name)
    (hsess : own.ha_sessionid = sessionid)
    (hid : own.ha_nodeid = info.ha_nodeid)
    (hidne : info.ha_nodeid ≠ "")
    (hactname : act.name ≠ "")
    (hactnotown : act.name ≠ info.name)
    (hactst : act.status = ZBX_NODE_STATUS_ACTIVE)
    (hownst : own.status = ZBX_NODE_STATUS_STANDBY)
    (hactid : act.ha_nodeid ≠ info.ha_nodeid)
    (hla : act.lastaccess = info.lastaccess_active)
    (hticks : 3 ≤ info.offline_ticks_active) :
    (ha_check_nodes sessionid true info db).1.ha_status = ZBX_NODE_STATUS_ACTIVE ∧
    ∀ n ∈ (ha_check_nodes sessionid true info db).2.nodes,
      (n.ha_nodeid = info.ha_nodeid → n.status = ZBX_NODE_STATUS_ACTIVE) ∧
      (n.ha_nodeid = act.ha_nodeid → n.status = ZBX_NODE_STATUS_UNAVAILABLE) := by
  have hidact : info.ha_nodeid ≠ act.ha_nodeid := fun hh => hactid hh.symm
  have h105 : Int.tdiv (10 : Int) (5 : Int) = 2 := by decide
  have hth : (2 : Int) + 1 < info.offline_ticks_active + 1 := by omega
  have hth3 : (3 : Int) < info.offline_ticks_active + 1 := by omega
  rcases horder with h | h <;>
    simp [ha_check_nodes, h, ha_find_node_by_name, find_first_active, ha_check_active_node,
      ha_db_update_own_node, ha_db_set_unavailable, ZBX_NODE_STATUS_ACTIVE,
      ZBX_NODE_STATUS_STANDBY, ZBX_HA_POLL_PERIOD, hname, hsess, hidne, hst, hfd, hactst,
      hownst, hactid, hidact, hactname, hactnotown, hla, hid, h105, hth, hth3]

/-- The standby node's own row in the failover witness cluster. -/
def own_c1 : HaNode :=
  { ha_nodeid := "n1", ha_sessionid := "sess", name := "b", address := "h1", port := 10051,
    status := ZBX_NODE_STATUS_STANDBY, lastaccess := 80 }

/-- The stalled active peer row in the failover witness cluster. -/
def act_c1 : HaNode :=
  { ha_nodeid := "n2", ha_sessionid := "other", name := "a", address := "h2", port := 10051,
    status := ZBX_NODE_STATUS_ACTIVE, lastaccess := 50 }

/-- Standby manager state that has already counted 3 unchanged ticks against
    lastaccess 50 of the active peer, with failover delay 10. -/
def info_c1 : HaInfo :=
  { ha_nodeid := "n1", ha_status := ZBX_NODE_STATUS_STANDBY, failover_delay := 10,
    lastaccess_active := 50, offline_ticks_active := 3, auditlog := 0, name := "b",
    error := none }

/-- Two-node snapshot with failover_delay 10 read at database time 100. -/
def db_c1 : HaDb :=
  { nodes := [own_c1, act_c1], db_time := 100, failover_delay := 10, auditlog := 0 }

/-- Witness for C1: on the next tick node "b" ends active and the committed
    table reads status active for its own row and unavailable for the
    stalled peer. -/
theorem C1_failover_takeover_witness :
    (ha_check_nodes "sess" true info_c1 db_c1).1.ha_status = ZBX_NODE_STATUS_ACTIVE ∧
    ((ha_check_nodes "sess" true info_c1 db_c1).2.nodes.map HaNode.status) =
      [ZBX_NODE_STATUS_ACTIVE, ZBX_NODE_STATUS_UNAVAILABLE] := by
  have h := C1_failover_takeover "sess" info_c1 db_c1 own_c1 act_c1 (Or.inl rfl) rfl rfl rfl
    rfl rfl (by decide) (by decide) (by decide) rfl rfl (by decide) rfl (by decide)
  exact ⟨h.1, by decide⟩

/-- A raw row whose port column does not parse as an unsigned short. -/
def row_c10 : HaNodeRow :=
  { ha_nodeid := "n1", name := "a", status := "3", lastaccess := "90", address := "host",
    port := "notanumber", ha_sessionid := "s1" }

/-- Witness for C10 on a one-row read with the malformed port column. -/
theorem C10_port_fallback_witness :
    (ha_db_get_nodes [row_c10]).length = 1 ∧
    ((ha_db_get_nodes [row_c10])[0]?).map HaNode.port = some 0 ∧
    ((ha_db_get_nodes_json (HaDb.mk (ha_db_get_nodes [row_c10]) 100 60 0))[0]?).map
        HaNodeJsonEntry.address = some "host:0" := by
  have h := C10_port_fallback [row_c10] 100 60 0 0 row_c10 (by decide) (by decide)
  exact ⟨h.1, h.2.1, by rw [h.2.2]; decide⟩
